import Mathlib

/-
Verification of the computational core of the Derivatives-Case_Study
dashboard (src/DerivativesCaseStudy.py): the sell-target-forward loss
formulas, the four market-scenario rate generators, the per-month loss
simulation loop, and the Bodnar-Marston optimal-hedge computation.

Real numbers in the Python source are modelled as rationals.  Python's
division, which raises ZeroDivisionError on a zero denominator, is
modelled by pyDiv returning an Except value.
-/

namespace DerivativesCaseStudy

/-- Failure kinds observable from the embedded code. zeroDivisionError
models Python's ZeroDivisionError, raised by the division operator on a
zero denominator.  invalidInput models the typed InvalidInput failure
that the design documentation prescribes for guarded preconditions; no
code path in the source produces it. -/
inductive PyError where
  | zeroDivisionError
  | invalidInput

/-- Python division on exact numbers: raises ZeroDivisionError on a zero
denominator, otherwise yields the quotient. -/
def pyDiv (a b : ℚ) : Except PyError ℚ :=
  if b = 0 then Except.error PyError.zeroDivisionError else Except.ok (a / b)

/-- Embeds calculate_stf_losses (src/DerivativesCaseStudy.py lines 62-91):
returns 0 when current_rate <= strike_price, otherwise computes
loss_brl = notional_value * 2 * months_remaining * (strike_price - current_rate)
and returns loss_usd = loss_brl / current_rate, the division being a
Python division.  The initial_rate parameter is accepted but unused, as
in the source. -/
def calculate_stf_losses (notional_value initial_rate current_rate strike_price
    months_remaining : ℚ) : Except PyError ℚ :=
  if current_rate ≤ strike_price then
    Except.ok 0
  else
    let loss_brl := notional_value * 2 * months_remaining * (strike_price - current_rate)
    pyDiv loss_brl current_rate

/-- Embeds calculate_percentage_loss (src lines 94-118): returns 0 when
current_rate <= strike_price, otherwise
2 * months_remaining * (strike_price - current_rate) * 100 / current_rate. -/
def calculate_percentage_loss (current_rate strike_price months_remaining : ℚ) :
    Except PyError ℚ :=
  if current_rate ≤ strike_price then
    Except.ok 0
  else
    pyDiv (2 * months_remaining * (strike_price - current_rate) * 100) current_rate

/-- Closed form of the value calculate_stf_losses yields when its division
cannot raise (derived helper, proven equal under 0 <= strike_price). -/
def stf_loss_value (notional_value current_rate strike_price months_remaining : ℚ) : ℚ :=
  if current_rate ≤ strike_price then 0
  else notional_value * 2 * months_remaining * (strike_price - current_rate) / current_rate

/-- Closed form of the value calculate_percentage_loss yields when its
division cannot raise (derived helper). -/
def pct_loss_value (current_rate strike_price months_remaining : ℚ) : ℚ :=
  if current_rate ≤ strike_price then 0
  else 2 * months_remaining * (strike_price - current_rate) * 100 / current_rate

/-- Embeds months = list(range(1, 13)) (src line 412). -/
def months : List ℕ := List.range' 1 12

/-- Embeds the Gradual Change scenario (src line 416):
rate i = initial_rate + (final_rate - initial_rate) * (i-1) / 11. -/
def exchange_rates_gradual (initial_rate final_rate : ℚ) : List ℚ :=
  months.map (fun i => initial_rate + (final_rate - initial_rate) * ((i : ℚ) - 1) / 11)

/-- Embeds the Sudden Shock scenario (src line 425):
rate i = initial_rate if i < shock_month else final_rate. -/
def exchange_rates_shock (initial_rate final_rate : ℚ) (shock_month : ℕ) : List ℚ :=
  months.map (fun i => if i < shock_month then initial_rate else final_rate)

/-- Embeds the Typical Pre-2008 Pattern scenario (src lines 433-435):
start_rate = 2.2, end_rate = 1.6, rate i = start - (start - end) * (i-1) / 11. -/
def exchange_rates_pre2008 : List ℚ :=
  months.map (fun i => 22/10 - (22/10 - 16/10) * ((i : ℚ) - 1) / 11)

/-- Embeds pre_crisis_rates (src line 445):
[initial_rate - 0.02 * (i-1) for i in range(1, 9)]. -/
def pre_crisis_rates (initial_rate : ℚ) : List ℚ :=
  (List.range' 1 8).map (fun i => initial_rate - 2/100 * ((i : ℚ) - 1))

/-- Embeds crisis_rates (src lines 446-447):
[initial_rate + (final_rate - initial_rate) * (i-8) / (12-8) for i in range(9, 13)]. -/
def crisis_rates (initial_rate final_rate : ℚ) : List ℚ :=
  (List.range' 9 4).map (fun i =>
    initial_rate + (final_rate - initial_rate) * ((i : ℚ) - 8) / (12 - 8))

/-- Embeds the 2008 Crisis Pattern scenario (src line 448):
exchange_rates = pre_crisis_rates + crisis_rates. -/
def exchange_rates_crisis (initial_rate final_rate : ℚ) : List ℚ :=
  pre_crisis_rates initial_rate ++ crisis_rates initial_rate final_rate

/-- The (month, rate) pairs of a scenario, as assembled into the DataFrame
columns Month and Exchange Rate (src lines 476-478). -/
def scenario_path (exchange_rates : List ℚ) : List (ℕ × ℚ) :=
  months.zip exchange_rates

/-- A scenario rate list is a valid 12-month path: 12 rates, and the
paired path has 12 points whose month indices are exactly 1..12 in order. -/
def valid_12_month_path (exchange_rates : List ℚ) : Prop :=
  exchange_rates.length = 12 ∧
  (scenario_path exchange_rates).length = 12 ∧
  (scenario_path exchange_rates).map Prod.fst = List.range' 1 12

/-- Embeds the scenario loss loop (src lines 464-471): for each rate in
the path, in order, the month's loss is calculate_stf_losses with
months_remaining = 1, stored scaled to millions. -/
def monthly_losses_usd (notional_value initial_rate strike_price : ℚ) :
    List ℚ → Except PyError (List ℚ)
  | [] => Except.ok []
  | rate :: rest =>
    match calculate_stf_losses notional_value initial_rate rate strike_price 1 with
    | Except.error e => Except.error e
    | Except.ok monthly_loss =>
      match monthly_losses_usd notional_value initial_rate strike_price rest with
      | Except.error e => Except.error e
      | Except.ok ml => Except.ok (monthly_loss / 1000000 :: ml)

/-- Running totals of a list starting from an accumulator. -/
def cumsum_from (acc : ℚ) : List ℚ → List ℚ
  | [] => []
  | x :: xs => (acc + x) :: cumsum_from (acc + x) xs

/-- Embeds np.cumsum as used for the Cumulative Loss column (src line 480):
the list of running totals. -/
def np_cumsum (xs : List ℚ) : List ℚ := cumsum_from 0 xs

/-- Embeds the Bodnar-Marston optimal hedge ratio (src line 856):
delta = h1 + (h1 - h2) * (1/r - 1), where 1/r is a Python division. -/
def delta (h1 h2 r : ℚ) : Except PyError ℚ :=
  match pyDiv 1 r with
  | Except.error e => Except.error e
  | Except.ok inv_r => Except.ok (h1 + (h1 - h2) * (inv_r - 1))

/-- Embeds the optimal hedge amount (src line 857):
optimal_hedge = delta * ebit_value. -/
def optimal_hedge (h1 h2 r ebit_value : ℚ) : Except PyError ℚ :=
  match delta h1 h2 r with
  | Except.error e => Except.error e
  | Except.ok d => Except.ok (d * ebit_value)

/-- When the strike is nonnegative, calculate_stf_losses never raises and
yields its closed-form value. -/
theorem calculate_stf_losses_eq (n i s x t : ℚ) (hx : 0 ≤ x) :
    calculate_stf_losses n i s x t = Except.ok (stf_loss_value n s x t) := by
  simp only [calculate_stf_losses, stf_loss_value, pyDiv]
  by_cases h : s ≤ x
  · simp [h]
  · push_neg at h
    have hs : s ≠ 0 := ne_of_gt (lt_of_le_of_lt hx h)
    simp [not_le.mpr h, hs]

/-- When the strike is nonnegative, calculate_percentage_loss never raises
and yields its closed-form value. -/
theorem calculate_percentage_loss_eq (s x t : ℚ) (hx : 0 ≤ x) :
    calculate_percentage_loss s x t = Except.ok (pct_loss_value s x t) := by
  simp only [calculate_percentage_loss, pct_loss_value, pyDiv]
  by_cases h : s ≤ x
  · simp [h]
  · push_neg at h
    have hs : s ≠ 0 := ne_of_gt (lt_of_le_of_lt hx h)
    simp [not_le.mpr h, hs]

/-- With a nonnegative strike the scenario loop succeeds and returns the
pointwise losses (months_remaining = 1) scaled to millions. -/
theorem monthly_losses_usd_eq (n i x : ℚ) (rates : List ℚ) (hx : 0 ≤ x) :
    monthly_losses_usd n i x rates =
      Except.ok (rates.map (fun rate => stf_loss_value n rate x 1 / 1000000)) := by
  induction rates with
  | nil => rfl
  | cons r rs ih =>
    rw [monthly_losses_usd, calculate_stf_losses_eq n i r x 1 hx, ih]
    rfl

/-- Each entry of a running-total list is the accumulator plus the sum of
the prefix up to that entry. -/
theorem cumsum_from_getElem (xs : List ℚ) :
    ∀ (a : ℚ) (m : ℕ), m < xs.length →
      (cumsum_from a xs)[m]? = some (a + (xs.take (m + 1)).sum) := by
  induction xs with
  | nil =>
    intro a m hm
    simp at hm
  | cons x xs ih =>
    intro a m hm
    cases m with
    | zero => simp [cumsum_from]
    | succ k =>
      have hk : k < xs.length := by simpa using hm
      rw [cumsum_from, List.getElem?_cons_succ, ih (a + x) k hk,
        List.take_succ_cons, List.sum_cons]
      congr 1
      ring

/-- Any rate list of length 12 forms a valid 12-month path. -/
theorem valid_of_length (l : List ℚ) (h : l.length = 12) : valid_12_month_path l := by
  have hle : months.length ≤ l.length := by rw [h]; exact Nat.le_of_eq rfl
  refine ⟨h, ?_, ?_⟩
  · simp [scenario_path, months, h]
  · rw [scenario_path, List.map_fst_zip months l hle]
    rfl

/-- C1: The claim states that in the loss regime calculate_stf_losses
returns a non-negative magnitude and calculate_percentage_loss a value
at least 0, with 31,500,000 and 210.0 at the given inputs.  This is
false: the code returns the signed values -31,500,000 and -210. -/
theorem c1_counterexample :
    calculate_stf_losses 15000000 (8/5) 2 (33/20) 6 = Except.ok (-31500000) ∧
    (-31500000 : ℚ) ≠ 31500000 ∧
    calculate_percentage_loss 2 (33/20) 6 = Except.ok (-210) ∧
    ¬ (0 ≤ (-210 : ℚ)) := by
  refine ⟨?_, by norm_num, ?_, by norm_num⟩
  · norm_num [calculate_stf_losses, pyDiv]
  · norm_num [calculate_percentage_loss, pyDiv]

/-- C1 (amended): in the loss regime (0 < strike < current rate, positive
notional and months remaining) calculate_stf_losses returns a strictly
negative signed loss and calculate_percentage_loss a strictly negative
percentage; at the claim's inputs the values are -31,500,000 and -210. -/
theorem c1_theorem (n i s x t : ℚ) (hn : 0 < n) (hx : 0 < x) (hs : x < s)
    (ht : 0 < t) :
    (∃ v, calculate_stf_losses n i s x t = Except.ok v ∧ v < 0) ∧
    (∃ p, calculate_percentage_loss s x t = Except.ok p ∧ p < 0) := by
  have hspos : 0 < s := hx.trans hs
  have hxs : x - s < 0 := sub_neg.mpr hs
  constructor
  · refine ⟨_, calculate_stf_losses_eq n i s x t hx.le, ?_⟩
    rw [stf_loss_value, if_neg (not_le.mpr hs)]
    apply div_neg_of_neg_of_pos _ hspos
    nlinarith [mul_pos hn ht]
  · refine ⟨_, calculate_percentage_loss_eq s x t hx.le, ?_⟩
    rw [pct_loss_value, if_neg (not_le.mpr hs)]
    apply div_neg_of_neg_of_pos _ hspos
    nlinarith

/-- Witness for c1_theorem at the claim's concrete inputs. -/
theorem c1_witness :
    (0 : ℚ) < 15000000 ∧ (0 : ℚ) < 33/20 ∧ (33/20 : ℚ) < 2 ∧ (0 : ℚ) < 6 ∧
    ((∃ v, calculate_stf_losses 15000000 (8/5) 2 (33/20) 6 = Except.ok v ∧ v < 0) ∧
      (∃ p, calculate_percentage_loss 2 (33/20) 6 = Except.ok p ∧ p < 0)) :=
  ⟨by norm_num, by norm_num, by norm_num, by norm_num,
    c1_theorem 15000000 (8/5) 2 (33/20) 6 (by norm_num) (by norm_num)
      (by norm_num) (by norm_num)⟩

/-- C2: whenever the current rate is at or below the strike, both
calculate_stf_losses and calculate_percentage_loss return exactly 0,
for every notional, initial rate and months remaining. -/
theorem c2_theorem (n i s x t : ℚ) (h : s ≤ x) :
    calculate_stf_losses n i s x t = Except.ok 0 ∧
    calculate_percentage_loss s x t = Except.ok 0 := by
  constructor
  · simp [calculate_stf_losses, h]
  · simp [calculate_percentage_loss, h]

/-- Witness for c2_theorem with current rate 1.60 below strike 1.65. -/
theorem c2_witness :
    (8/5 : ℚ) ≤ 33/20 ∧
    (calculate_stf_losses 15000000 (8/5) (8/5) (33/20) 6 = Except.ok 0 ∧
      calculate_percentage_loss (8/5) (33/20) 6 = Except.ok 0) :=
  ⟨by norm_num, c2_theorem 15000000 (8/5) (8/5) (33/20) 6 (by norm_num)⟩

/-- C7: the initial_rate argument never changes the result of
calculate_stf_losses (and calculate_percentage_loss takes neither a
notional nor an initial rate, so it cannot depend on them). -/
theorem c7_theorem (n i1 i2 s x t : ℚ) :
    calculate_stf_losses n i1 s x t = calculate_stf_losses n i2 s x t := rfl

/-- C10: with a positive strike, calculate_stf_losses is total: it
returns 0 whenever the current rate is at or below the strike (including
a current rate of 0, without evaluating the division), and in every case
it returns a value rather than a ZeroDivisionError, since the division
is only reached when current rate > strike > 0. -/
theorem c10_theorem (n i s x t : ℚ) (hx : 0 < x) :
    (s ≤ x → calculate_stf_losses n i s x t = Except.ok 0) ∧
    ∃ v, calculate_stf_losses n i s x t = Except.ok v := by
  constructor
  · intro h
    simp [calculate_stf_losses, h]
  · exact ⟨_, calculate_stf_losses_eq n i s x t hx.le⟩

/-- Witness for c10_theorem at current rate 0 and strike 1.65. -/
theorem c10_witness :
    (0 : ℚ) < 33/20 ∧
    (((0 : ℚ) ≤ 33/20 → calculate_stf_losses 15000000 (8/5) 0 (33/20) 6 = Except.ok 0) ∧
      ∃ v, calculate_stf_losses 15000000 (8/5) 0 (33/20) 6 = Except.ok v) :=
  ⟨by norm_num, c10_theorem 15000000 (8/5) 0 (33/20) 6 (by norm_num)⟩

/-- C3: for every scenario rate path (with a nonnegative strike), the
loop succeeds and produces a list where each month's entry comes from
calculate_stf_losses called with months_remaining = 1, and the cumulative
loss at month m (np.cumsum) equals the sum of the monthly losses for
months 1 through m. -/
theorem c3_theorem (n i x : ℚ) (rates : List ℚ) (hx : 0 ≤ x) :
    ∃ ml : List ℚ,
      monthly_losses_usd n i x rates = Except.ok ml ∧
      ml.length = rates.length ∧
      (∀ m : ℕ, (hm : m < rates.length) → ∃ v,
        calculate_stf_losses n i rates[m] x 1 = Except.ok v ∧
        ml[m]? = some (v / 1000000)) ∧
      (∀ m : ℕ, m < ml.length →
        (np_cumsum ml)[m]? = some ((ml.take (m + 1)).sum)) := by
  refine ⟨rates.map (fun rate => stf_loss_value n rate x 1 / 1000000),
    monthly_losses_usd_eq n i x rates hx, by simp, ?_, ?_⟩
  · intro m hm
    refine ⟨stf_loss_value n rates[m] x 1,
      calculate_stf_losses_eq n i rates[m] x 1 hx, ?_⟩
    rw [List.getElem?_map, List.getElem?_eq_getElem hm]
    rfl
  · intro m hm
    rw [np_cumsum, cumsum_from_getElem _ 0 m hm, zero_add]

/-- Witness for c3_theorem on the one-point path with rate 2.00, strike
1.65, notional 15,000,000. -/
theorem c3_witness :
    (0 : ℚ) ≤ 33/20 ∧
    ∃ ml : List ℚ,
      monthly_losses_usd 15000000 (8/5) (33/20) [2] = Except.ok ml ∧
      ml.length = ([2] : List ℚ).length ∧
      (∀ m : ℕ, (hm : m < ([2] : List ℚ).length) → ∃ v,
        calculate_stf_losses 15000000 (8/5) (([2] : List ℚ)[m]) (33/20) 1 = Except.ok v ∧
        ml[m]? = some (v / 1000000)) ∧
      (∀ m : ℕ, m < ml.length →
        (np_cumsum ml)[m]? = some ((ml.take (m + 1)).sum)) :=
  ⟨by norm_num, c3_theorem 15000000 (8/5) (33/20) [2] (by norm_num)⟩

/-- C4: each of the four scenario patterns with the hard-coded 12-month
duration yields 12 rates, and pairing them with the month column gives a
path of exactly 12 points whose month indices are 1..12 in order. -/
theorem c4_theorem (initial_rate final_rate : ℚ) (shock_month : ℕ) :
    valid_12_month_path (exchange_rates_gradual initial_rate final_rate) ∧
    valid_12_month_path (exchange_rates_shock initial_rate final_rate shock_month) ∧
    valid_12_month_path exchange_rates_pre2008 ∧
    valid_12_month_path (exchange_rates_crisis initial_rate final_rate) :=
  ⟨valid_of_length _ rfl, valid_of_length _ rfl, valid_of_length _ rfl,
    valid_of_length _ rfl⟩

/-- C5: the claim states that months 9-12 of the 2008 Crisis Pattern
interpolate linearly from the value at month 8 up to the end rate.  This
is false: with start rate 1.60 and end rate 2.00, the month-8 value is
1.46, interpolation from it would give 1.595 at month 9, but the code
produces 1.70 (it interpolates from the start rate, not from the
month-8 value). -/
theorem c5_counterexample :
    (exchange_rates_crisis (8/5) 2)[7]? = some (73/50) ∧
    (exchange_rates_crisis (8/5) 2)[8]? = some (17/10) ∧
    (17/10 : ℚ) ≠ 73/50 + (2 - 73/50) * ((9 : ℚ) - 8) / ((12 : ℚ) - 8) := by
  refine ⟨?_, ?_, by norm_num⟩ <;>
    · simp [exchange_rates_crisis, pre_crisis_rates, crisis_rates, List.range']
      norm_num

/-- C5 (amended): month i of the 2008 Crisis Pattern equals
initial_rate - 0.02*(i-1) for months 1..8, and
initial_rate + (final_rate - initial_rate)*(i-8)/(12-8) for months 9..12,
a linear ramp anchored at the start rate (not at the month-8 value) that
reaches the end rate at month 12. -/
theorem c5_theorem (initial_rate final_rate : ℚ) (i : ℕ) (h1 : 1 ≤ i)
    (h2 : i ≤ 12) :
    (exchange_rates_crisis initial_rate final_rate)[i - 1]? =
      some (if i ≤ 8 then initial_rate - 2/100 * ((i : ℚ) - 1)
        else initial_rate + (final_rate - initial_rate) * ((i : ℚ) - 8) / (12 - 8)) := by
  interval_cases i <;>
    simp [exchange_rates_crisis, pre_crisis_rates, crisis_rates, List.range']

/-- Witness for c5_theorem at month 9 with rates 1.60 and 2.00. -/
theorem c5_witness :
    1 ≤ 9 ∧ 9 ≤ 12 ∧
    (exchange_rates_crisis (8/5) 2)[9 - 1]? =
      some (if 9 ≤ 8 then (8/5 : ℚ) - 2/100 * ((9 : ℚ) - 1)
        else 8/5 + (2 - 8/5) * ((9 : ℚ) - 8) / (12 - 8)) :=
  ⟨by norm_num, by norm_num, c5_theorem (8/5) 2 9 (by norm_num) (by norm_num)⟩

/-- C6: the claim states calculate_percentage_loss is strictly increasing
in the current rate above the strike.  This is false: at strike 1.65 and
6 months the code returns -210 at rate 2.00 and -540 at rate 3.00, so
the value decreases as the rate rises. -/
theorem c6_counterexample :
    calculate_percentage_loss 2 (33/20) 6 = Except.ok (-210) ∧
    calculate_percentage_loss 3 (33/20) 6 = Except.ok (-540) ∧
    ¬ ((-540 : ℚ) > -210) := by
  refine ⟨?_, ?_, by norm_num⟩ <;> norm_num [calculate_percentage_loss, pyDiv]

/-- C6 (amended): for a fixed positive strike and positive months
remaining, calculate_percentage_loss is strictly decreasing as the
current rate increases above the strike (its magnitude, the percentage
loss, is strictly increasing). -/
theorem c6_theorem (x t s1 s2 : ℚ) (hx : 0 < x) (ht : 0 < t) (h1 : x < s1)
    (h2 : s1 < s2) :
    ∃ p1 p2, calculate_percentage_loss s1 x t = Except.ok p1 ∧
      calculate_percentage_loss s2 x t = Except.ok p2 ∧ p2 < p1 := by
  have hs1 : 0 < s1 := hx.trans h1
  have hs2 : 0 < s2 := hs1.trans h2
  refine ⟨_, _, calculate_percentage_loss_eq s1 x t hx.le,
    calculate_percentage_loss_eq s2 x t hx.le, ?_⟩
  rw [pct_loss_value, pct_loss_value, if_neg (not_le.mpr h1),
    if_neg (not_le.mpr (h1.trans h2)), div_lt_div_iff₀ hs2 hs1]
  nlinarith [mul_pos (mul_pos ht hx) (sub_pos.mpr h2)]

/-- Witness for c6_theorem at strike 1.65, 6 months, rates 2.00 < 3.00. -/
theorem c6_witness :
    (0 : ℚ) < 33/20 ∧ (0 : ℚ) < 6 ∧ (33/20 : ℚ) < 2 ∧ (2 : ℚ) < 3 ∧
    ∃ p1 p2, calculate_percentage_loss 2 (33/20) 6 = Except.ok p1 ∧
      calculate_percentage_loss 3 (33/20) 6 = Except.ok p2 ∧ p2 < p1 :=
  ⟨by norm_num, by norm_num, by norm_num, by norm_num,
    c6_theorem (33/20) 6 2 3 (by norm_num) (by norm_num) (by norm_num)
      (by norm_num)⟩

/-- C8: month i of the Sudden Shock scenario equals the initial rate when
i < shock_month and the final rate otherwise, for every month 1..12 and
every shock month. -/
theorem c8_theorem (initial_rate final_rate : ℚ) (shock_month : ℕ) (i : ℕ)
    (h1 : 1 ≤ i) (h2 : i ≤ 12) :
    (exchange_rates_shock initial_rate final_rate shock_month)[i - 1]? =
      some (if i < shock_month then initial_rate else final_rate) := by
  interval_cases i <;> simp [exchange_rates_shock, months, List.range']

/-- Witness for c8_theorem: with start 1.60, end 2.00 and shock month 6,
month 5 is 1.60 and month 6 is 2.00. -/
theorem c8_witness :
    ((exchange_rates_shock (8/5) 2 6)[5 - 1]? =
      some (if 5 < 6 then (8/5 : ℚ) else 2)) ∧
    ((exchange_rates_shock (8/5) 2 6)[6 - 1]? =
      some (if 6 < 6 then (8/5 : ℚ) else 2)) :=
  ⟨c8_theorem (8/5) 2 6 5 (by norm_num) (by norm_num),
    c8_theorem (8/5) 2 6 6 (by norm_num) (by norm_num)⟩

/-- C9: the claim states the optimal-hedge computation fails with a typed
InvalidInput error at profit margin 0.  This is false: at the spec's
example inputs with r = 0 the unguarded division 1/r makes the
computation fail with a propagated ZeroDivisionError, not InvalidInput. -/
theorem c9_counterexample :
    delta (19/20) (1/4) 0 = Except.error PyError.zeroDivisionError ∧
    optimal_hedge (19/20) (1/4) 0 500000000 =
      Except.error PyError.zeroDivisionError ∧
    delta (19/20) (1/4) 0 ≠ Except.error PyError.invalidInput := by
  refine ⟨?_, ?_, ?_⟩ <;> simp [delta, optimal_hedge, pyDiv]

/-- C9 (amended): for every input with profit margin r = 0, delta and
optimal_hedge fail with the numeric ZeroDivisionError propagated from
the division 1/r; no typed InvalidInput failure exists in the code. -/
theorem c9_theorem (h1 h2 ebit_value : ℚ) :
    delta h1 h2 0 = Except.error PyError.zeroDivisionError ∧
    optimal_hedge h1 h2 0 ebit_value = Except.error PyError.zeroDivisionError ∧
    delta h1 h2 0 ≠ Except.error PyError.invalidInput := by
  refine ⟨?_, ?_, ?_⟩ <;> simp [delta, optimal_hedge, pyDiv]
